import Mathlib

/-!
Shallow embedding of `crewai-autocrew.py` (version 1.1.1) and proofs about it.

Conventions used throughout:
* Python strings are Lean `String`s, manipulated through their character
  lists (`String.data`) so that every definition is executable and
  kernel-reducible.  Python helpers with a one-character pattern
  (`str.replace(c, r)`, `str.strip(chars)`, `str.split(c)`, `c.join`,
  `needle in hay`, slicing) are modelled character-wise, which coincides
  with their Python semantics for one-character patterns.
* `str.lower()` is modelled as ASCII lowering (the only characters the
  program ever lowers are ASCII header names and file names).
* Python exceptions are modelled by `Except PyError`; an uncaught
  exception is an `Except.error` value.
* The standard-library `csv.reader` is an external black box to this
  program (as are the Ollama client and the file system); a CSV text is
  therefore represented by its reader output, a `List (List String)` of
  rows, and the surrounding environment (`Env`) carries the reader as an
  oracle function, together with the model's responses, the clock, the
  directory listing and file contents.
-/

/-! ## Character and string utilities mirroring the Python primitives -/

/-- The double-quote character. -/
def dqChar : Char := Char.ofNat 34

/-- The single-quote character. -/
def sqChar : Char := Char.ofNat 39

/-- One-character string holding a single quote. -/
def sqS : String := String.mk [sqChar]

/-- Python `s.replace(a, b)` for one-character `a` and `b`: a character map. -/
def replaceChar (a b : Char) (s : String) : String :=
  String.mk (s.data.map (fun c => if c = a then b else c))

/-- Python `s.replace(a, r)` for a one-character pattern `a` and a
replacement string `r` (given as a character list). -/
def replaceCharStr (a : Char) (r : List Char) (s : String) : String :=
  String.mk (s.data.flatMap (fun c => if c = a then r else [c]))

/-- Python `s.strip(chars)`: drop leading and trailing characters
satisfying `p`. -/
def stripChars (p : Char → Bool) (s : String) : String :=
  String.mk (((s.data.dropWhile p).reverse.dropWhile p).reverse)

/-- Python `value.strip(String.mk [dqChar])` as used by the parser: remove all leading
and trailing double quotes. -/
def stripQuotes (s : String) : String :=
  stripChars (fun c => c = dqChar) s

/-- Python `s.strip()` with no argument: strip ASCII whitespace. -/
def pyStrip (s : String) : String :=
  stripChars (fun c => c = ' ' || c = '\t' || c = '\n' || c = '\r' ||
    c = Char.ofNat 11 || c = Char.ofNat 12) s

/-- Python `s[:n]`: the first `n` characters. -/
def strTake (n : Nat) (s : String) : String :=
  String.mk (s.data.take n)

/-- Python `sep.join(l)`. -/
def pyJoin (sep : String) : List String → String
  | [] => ""
  | [x] => x
  | x :: y :: xs => x ++ sep ++ pyJoin sep (y :: xs)

/-- Python `s.split(c)` for a one-character separator, on character lists. -/
def splitCharList (sep : Char) : List Char → List (List Char)
  | [] => [[]]
  | c :: rest =>
    let r := splitCharList sep rest
    if c = sep then [] :: r
    else
      match r with
      | [] => [[c]]
      | h :: t => (c :: h) :: t

/-- Python `s.split(chr(10))`: split on newline characters, keeping empty pieces. -/
def splitNL (s : String) : List String :=
  (splitCharList '\n' s.data).map String.mk

/-- ASCII lowering of one character (model of `str.lower()` per character). -/
def lowerChar (c : Char) : Char :=
  if 65 ≤ c.toNat ∧ c.toNat ≤ 90 then Char.ofNat (c.toNat + 32) else c

/-- Python `s.lower()` (ASCII). -/
def strLower (s : String) : String :=
  String.mk (s.data.map lowerChar)

/-- Python `needle in hay` (substring containment) on character lists. -/
def subOccurs (needle : List Char) : List Char → Bool
  | [] => needle.isEmpty
  | c :: rest => needle.isPrefixOf (c :: rest) || subOccurs needle rest

/-- Python `needle in hay` for strings. -/
def strContains (hay needle : String) : Bool :=
  subOccurs needle.data hay.data

/-- Python `s.startswith(p)`. -/
def strStarts (s p : String) : Bool :=
  p.data.isPrefixOf s.data

/-- Python `s.endswith(p)`. -/
def strEnds (s p : String) : Bool :=
  List.isSuffixOf p.data s.data

/-- Python `os.path.basename(p)`: the part after the last slash. -/
def basename (p : String) : String :=
  ((p.splitOn "/").getLast?).getD ""

/-- Python `os.path.join(cwd, name)` for a simple relative name. -/
def pathJoin (a b : String) : String := a ++ "/" ++ b

/-! ## Exceptions and the parsed data model -/

/-- The Python exceptions the script can raise. -/
inductive PyError where
  | indexError
  | keyError
  | valueError (msg : String)
deriving DecidableEq, Repr

/-- One parsed agent row: the `agent_data` dict of `parse_csv_data`
restricted to the keys the parser can ever assign (`header_indices` only
produces names from the expected header).  A `none` field is a key absent
from the dict. -/
structure AgentData where
  filename : Option String := none
  role : Option String := none
  goal : Option String := none
  backstory : Option String := none
  assigned_task : Option String := none
  allow_delegation : Option String := none
deriving DecidableEq, Repr

/-- Dict assignment `agent_data[name] = v` for the six possible keys. -/
def setField (a : AgentData) (name v : String) : AgentData :=
  if name = "filename" then { a with filename := some v }
  else if name = "role" then { a with role := some v }
  else if name = "goal" then { a with goal := some v }
  else if name = "backstory" then { a with backstory := some v }
  else if name = "assigned_task" then { a with assigned_task := some v }
  else if name = "allow_delegation" then { a with allow_delegation := some v }
  else a

/-- Dict read `agent[key]`: raises `KeyError` when the key is absent. -/
def dictGet (v : Option String) : Except PyError String :=
  match v with
  | some s => Except.ok s
  | none => Except.error PyError.keyError

/-! ## `parse_csv_data` (lines 44-65 of the source) -/

/-- The expected header of `parse_csv_data` (line 45). -/
def expectedHeader : List String :=
  ["filename", "role", "goal", "backstory", "assigned_task", "allow_delegation"]

/-- Line 52-53: `header_indices = [header_mapping.get(h.lower()) for h in
header_line]`.  Since the keys and values of `header_mapping` are the
(already lowercase) expected names, the lookup returns the lowered header
cell when it is an expected name, and `None` otherwise. -/
def headerIndices (headerLine : List String) : List (Option String) :=
  headerLine.map (fun h =>
    if expectedHeader.contains (strLower h) then some (strLower h) else none)

/-- Lines 57-60: `for i, value in enumerate(line): header_name =
header_indices[i]; if header_name: agent_data[header_name] =
value.strip(quote)`.  Runs out of `header_indices` exactly when the row has
more fields than the header row, raising `IndexError`. -/
def assignFields : List (Option String) → List String → AgentData →
    Except PyError AgentData
  | _, [], acc => Except.ok acc
  | [], _ :: _, _ => Except.error PyError.indexError
  | h :: hs, v :: vs, acc =>
    assignFields hs vs
      (match h with
       | some name => setField acc name (stripQuotes v)
       | none => acc)

/-- One cell's effect on the dict: assign when the header position maps to
an expected name, skip otherwise. -/
def applyCell (acc : AgentData) (p : String × Option String) : AgentData :=
  match p.2 with
  | some name => setField acc name (stripQuotes p.1)
  | none => acc

/-- The dict a row yields when no `IndexError` occurs: the same
assignments as `assignFields`, as a total fold over the zipped row. -/
def rowRecord (hIdx : List (Option String)) (line : List String) : AgentData :=
  (line.zip hIdx).foldl applyCell {}

/-- Message of the `ValueError` raised on a missing role (line 62). -/
def roleMissingMsg : String := "Role component missing in CSV data"

/-- Lines 56-64: process one data row: assign the fields, check the role,
then record the provenance filename. -/
def parseLine (hIdx : List (Option String)) (filename : String)
    (line : List String) : Except PyError AgentData :=
  match assignFields hIdx line {} with
  | Except.error e => Except.error e
  | Except.ok a =>
    if a.role = none ∨ a.role = some "" then
      Except.error (PyError.valueError roleMissingMsg)
    else
      Except.ok { a with filename := some filename }

/-- The loop of lines 55-64: rows are processed left to right, results
appended in order, and the first exception aborts the whole call. -/
def mapMExcept (f : α → Except PyError β) : List α → Except PyError (List β)
  | [] => Except.ok []
  | a :: l =>
    match f a with
    | Except.error e => Except.error e
    | Except.ok b =>
      match mapMExcept f l with
      | Except.error e => Except.error e
      | Except.ok bs => Except.ok (b :: bs)

/-- `parse_csv_data(response, delimiter, filename)` (lines 44-65), with the
response already split into rows by the `csv.reader`.  An empty response
gives no rows, so `lines[0]` raises `IndexError`. -/
def parse_csv_data (lines : List (List String)) (filename : String) :
    Except PyError (List AgentData) :=
  match lines with
  | [] => Except.error PyError.indexError
  | headerLine :: rest => mapMExcept (parseLine (headerIndices headerLine) filename) rest

/-- The header row the specification's claims are about. -/
def stdHeader : List String :=
  ["role", "goal", "backstory", "assigned_task", "allow_delegation"]

/-- Boolean test: the first field of the row, quote-stripped, is non-empty
(with the standard header this is the row's role value). -/
def roleOkB (row : List String) : Bool :=
  match row with
  | [] => false
  | v :: _ => stripQuotes v != ""

/-- Boolean test: the role the parser would compute for this row is absent
or empty. -/
def badRoleB (hIdx : List (Option String)) (row : List String) : Bool :=
  (rowRecord hIdx row).role == none || (rowRecord hIdx row).role == some ""

/-- Does a parse result succeed? -/
def parseSucceeds (r : Except PyError (List AgentData)) : Bool :=
  match r with
  | Except.ok _ => true
  | Except.error _ => false

/-- Is a parse result a `ValueError` (the parser's validation error)? -/
def isValueError (r : Except PyError (List AgentData)) : Bool :=
  match r with
  | Except.error (PyError.valueError _) => true
  | _ => false

/-- Is a parse result an `IndexError` (out-of-bounds indexing)? -/
def isIndexError (r : Except PyError (List AgentData)) : Bool :=
  match r with
  | Except.error PyError.indexError => true
  | _ => false

/-! ## Identifier derivation and the script emitters (lines 68-137) -/

/-- The identifier derivation used on roles throughout the script
(lines 69, 87, 99, 106, 294): `role.replace(' ', un).replace('-',
un).replace('.', un)` with `un` the underscore. -/
def derive (s : String) : String :=
  replaceChar '.' '_' (replaceChar '-' '_' (replaceChar ' ' '_' s))

/-- `get_task_var_name(role)` (lines 86-87). -/
def get_task_var_name (role : String) : String :=
  "task_" ++ derive role

/-- Line 70-71 escaping: `.replace(dq, bs+dq).replace(sq, bs+sq)` with
`bs` a backslash. -/
def escapeDq (s : String) : String :=
  replaceCharStr dqChar ['\\', dqChar] s

/-- Both replacements of lines 70-71 in source order. -/
def escapeQuotes (s : String) : String :=
  replaceCharStr sqChar ['\\', sqChar] (escapeDq s)

/-- `define_agent(agent, search_tool)` (lines 68-83).  Dict accesses on a
missing key raise `KeyError`. -/
def define_agent (agent : AgentData) (search_tool : String) :
    Except PyError String :=
  match agent.role with
  | none => Except.error PyError.keyError
  | some role =>
    match agent.backstory with
    | none => Except.error PyError.keyError
    | some backstory =>
      match agent.allow_delegation with
      | none => Except.error PyError.keyError
      | some alw =>
        match agent.goal with
        | none => Except.error PyError.keyError
        | some goal =>
          Except.ok (derive role ++ " = Agent(\n    role=\"" ++ escapeQuotes role ++
            "\",\n    goal=\"" ++ goal ++ "\",\n    backstory=\"" ++
            escapeQuotes backstory ++
            "\",\n    verbose=True,\n    allow_delegation=" ++
            (if alw = "True" then "True" else "False") ++
            ",\n    llm=ollama_openhermes,\n    tools=[" ++ search_tool ++ "]\n)\n\n")

/-- `define_task(agent)` (lines 90-102): note that the description only
escapes double quotes (line 94). -/
def define_task (agent : AgentData) : Except PyError String :=
  match agent.role with
  | none => Except.error PyError.keyError
  | some role =>
    match agent.assigned_task with
    | none => Except.error PyError.keyError
    | some t =>
      Except.ok (get_task_var_name role ++ " = Task(\n description=\"" ++
        escapeDq (pyStrip t) ++ "\",\n agent=" ++ derive role ++
        ",\n verbose=True,\n)\n\n")

/-- The fixed preamble written by `write_crewai_script` (lines 108-117). -/
def scriptPreamble : String :=
  "import os\nfrom langchain_community.chat_models import ChatOpenAI\nfrom langchain_community.llms import Ollama\nfrom langchain_community.tools import DuckDuckGoSearchRun\nfrom crewai import Agent, Task, Crew, Process\n\nos.environ[\"OPENAI_API_KEY\"] = \"your_OPENAI_api_key_here\"\n\nollama_openhermes = Ollama(model=\"openhermes\")\nsearch_tool = DuckDuckGoSearchRun()\n\n"

/-- The crew block written at the end of the script (lines 127-137). -/
def crewBlock (crew_agents crew_tasks : String) : String :=
  "crew = Crew(\n    agents=[" ++ crew_agents ++ "],\n    tasks=[" ++ crew_tasks ++
  "],\n    verbose=True,\n    process=Process.sequential,\n)\n\n# Kickoff the crew tasks\nresult = crew.kickoff()\n\n# Handle the \"result\" as needed\n"

/-- Line 294 of `main`: `crew_tasks = ', '.join([f'task_' + derived role
for agent in agents_data])`; a list comprehension evaluates left to right
and the first missing key raises. -/
def crewTasksOf (agents : List AgentData) : Except PyError String :=
  match mapMExcept
      (fun a =>
        match a.role with
        | none => Except.error PyError.keyError
        | some r => Except.ok ("task_" ++ derive r))
      agents with
  | Except.error e => Except.error e
  | Except.ok names => Except.ok (pyJoin ", " names)

/-- `write_crewai_script(agents_data, crew_tasks, file_name)`
(lines 105-137), modelled as the full text written to the file.
`crew_agents` is computed first (line 106), then the agent snippets, the
task snippets and the crew block are emitted in order. -/
def write_crewai_script (agents_data : List AgentData) (crew_tasks : String) :
    Except PyError String :=
  match mapMExcept
      (fun a =>
        match a.role with
        | none => Except.error PyError.keyError
        | some r => Except.ok (derive r))
      agents_data with
  | Except.error e => Except.error e
  | Except.ok agentVars =>
    match mapMExcept (fun a => define_agent a "search_tool") agents_data with
    | Except.error e => Except.error e
    | Except.ok agentDefs =>
      match mapMExcept define_task agents_data with
      | Except.error e => Except.error e
      | Except.ok taskDefs =>
        Except.ok (scriptPreamble ++
          String.join (agentDefs.map (fun s => s ++ "\n")) ++
          String.join (taskDefs.map (fun s => s ++ "\n")) ++
          crewBlock (pyJoin ", " agentVars) crew_tasks)

/-! ## Specification-side view of the emitters

An `AgentData` whose five model-provided fields are all present, as plain
strings; the agent and task snippets and the whole script are restated
over it so the emitted identifiers are visibly consistent. -/

structure FullAgent where
  role : String
  goal : String
  backstory : String
  assigned_task : String
  allow_delegation : String
deriving DecidableEq, Repr

/-- The dict such an agent corresponds to. -/
def FullAgent.toData (f : FullAgent) : AgentData :=
  { filename := none, role := some f.role, goal := some f.goal,
    backstory := some f.backstory, assigned_task := some f.assigned_task,
    allow_delegation := some f.allow_delegation }

/-- The agent snippet, written from the record's fields: the defined
variable is `derive role`; `role` and `backstory` are emitted with both
kinds of quotes escaped; `goal` is emitted verbatim. -/
def agentSnippet (a : FullAgent) (tool : String) : String :=
  derive a.role ++ " = Agent(\n    role=\"" ++ escapeQuotes a.role ++
    "\",\n    goal=\"" ++ a.goal ++ "\",\n    backstory=\"" ++
    escapeQuotes a.backstory ++ "\",\n    verbose=True,\n    allow_delegation=" ++
    (if a.allow_delegation = "True" then "True" else "False") ++
    ",\n    llm=ollama_openhermes,\n    tools=[" ++ tool ++ "]\n)\n\n"

/-- The task snippet, written from the record's fields: the defined
variable is `"task_" ++ derive role`, the agent reference is `derive role`,
and the description escapes only double quotes. -/
def taskSnippet (a : FullAgent) : String :=
  "task_" ++ derive a.role ++ " = Task(\n description=\"" ++
    escapeDq (pyStrip a.assigned_task) ++ "\",\n agent=" ++ derive a.role ++
    ",\n verbose=True,\n)\n\n"

/-- The task snippet the claim predicts: both double and single quotes in
the description backslash-escaped. -/
def taskSnippetClaim (a : FullAgent) : String :=
  "task_" ++ derive a.role ++ " = Task(\n description=\"" ++
    escapeQuotes (pyStrip a.assigned_task) ++ "\",\n agent=" ++ derive a.role ++
    ",\n verbose=True,\n)\n\n"

/-- The whole script, written from the records: one agent variable
(`derive role`) and one task variable (`"task_" ++ derive role`) per
record, each used identically in its definition, in the task's agent
reference, and in the crew's member lists. -/
def scriptSpec (l : List FullAgent) : String :=
  scriptPreamble ++
  String.join (l.map (fun a => agentSnippet a "search_tool" ++ "\n")) ++
  String.join (l.map (fun a => taskSnippet a ++ "\n")) ++
  crewBlock (pyJoin ", " (l.map (fun a => derive a.role)))
    (pyJoin ", " (l.map (fun a => "task_" ++ derive a.role)))

/-! ## `rank_crews` concatenation (lines 158-219) -/

/-- The shared header line initialising the concatenated CSV (line 168). -/
def csvSharedHeader : String :=
  "filename,role,goal,backstory,assigned_task,allow_delegation\n"

/-- Line 182: `join-newline([basename + comma + row for row in
csv_data.strip().split(newline)])`, reading the file at `p`. -/
def fileBlock (read : String → String) (p : String) : String :=
  pyJoin "\n" ((splitNL (pyStrip (read p))).map (fun row => basename p ++ "," ++ row))

/-- Lines 168-184: fold over the file paths, skipping any whose lowered
path contains "ranking", appending each file's prefixed block plus a
newline. -/
def concatenatedCsvData (read : String → String) (paths : List String) : String :=
  paths.foldl
    (fun acc p =>
      if strContains (strLower p) "ranking" then acc
      else acc ++ fileBlock read p ++ "\n")
    csvSharedHeader

/-- The ranking prompt built at lines 190-197. -/
def rankPrompt (goal concatenated : String) : String :=
  "From a list of crews, you need to provide identify which crew is most likely to successfully complete the task: " ++
  goal ++ ". Each crew contains agents and tasks. The list of all agents is here: " ++
  concatenated ++ ". In this list, the information in the filename column is the crew name. I want you to return a CSV with the following columns: crewname, rank, explanation, recommendation. In rank, assign 1 to your preferred crew. In explanation, explain why you assigned this rank to this particular crew. In recommendation, outline changes that would further improve the performance of this crew."

/-- The prompt `rank_crews` sends: paths are deduplicated first
(line 164; CPython's set order is environment-dependent and modelled as
first-occurrence order), then concatenated. -/
def rankCrewsPrompt (read : String → String) (paths : List String)
    (goal : String) : String :=
  rankPrompt goal (concatenatedCsvData read paths.eraseDups)

/-- The `overall_summary` string built at lines 208-217. -/
def rankSummary (paths : List String) (ranked critique : String) : String :=
  "\n\nCrews in the following CSV files:\n" ++
  String.join (paths.map (fun p => p ++ "\n")) ++
  "Ranking: " ++ ranked ++ "\n" ++ "Critique: " ++ critique ++ "\n" ++
  "\nOverall Summary:\nOllama has ranked the crews based on their likelihood of success.\nIt has provided a critique for each crew, highlighting their strengths and weaknesses.\nThe ranking and critique can be used to make informed decisions about the crews.\n"

/-! ## `main` (lines 222-330) -/

/-- The instruction string of `get_agent_data` (lines 24-30). -/
def agentPrompt (goal delim : String) : String :=
  "Create a dataset in a CSV format with each field enclosed in double quotes, for a team of agents with the goal: \"" ++
  goal ++ "\". Use the delimiter \"" ++ delim ++
  "\" to separate the fields. Include columns \"role\", \"goal\", \"backstory\", \"assigned_task\", \"allow_delegation\". Each agent" ++
  sqS ++
  "s details should be in quotes to avoid confusion with the delimiter. Provide a single-word role, specific goal, brief backstory, assigned task, and delegation ability (True/False) for each agent."

/-- Externally observable effects of a run that the claims are about.
Stdout progress messages other than the no-CSV-found report are not
traced; file writes are traced by path. -/
inductive Event where
  | modelCall (prompt : String)
  | fileWrite (path : String)
  | scriptRun (cmd : String)
  | print (msg : String)
deriving DecidableEq, Repr

/-- How `main` ends: normal return, or an uncaught exception. -/
inductive MainResult where
  | returned
  | raised (e : PyError)
deriving DecidableEq, Repr

/-- The parsed command line. -/
structure Args where
  overall_goal : Option String
  auto_run : Bool
  multiple : Option Int
  ranking : Bool

/-- The environment `main` runs in: everything read from outside the
program, as oracles. `csvRead` stands for
`list(csv.reader(io.StringIO(text), delimiter))`. -/
structure Env where
  stdinGoal : String
  cwd : String
  listdir : List String
  timestamps : Nat → String
  responses : Nat → String
  readFile : String → String
  csvRead : String → List (List String)

/-- Python truthiness of the `--multiple` value (`None` or an int). -/
def multTruthy : Option Int → Bool
  | none => false
  | some k => k != 0

/-- Message of the `ValueError` raised at line 242. -/
def cfgErrorMsg : String :=
  "The -m and -a command line parameters must not be used simultaneously"

/-- Lines 245-248: the goal used in ranking mode (the CLI goal when truthy,
else the interactive answer). -/
def resolvedRankingGoal (args : Args) (env : Env) : String :=
  match args.overall_goal with
  | some g => if g = "" then env.stdinGoal else g
  | none => env.stdinGoal

/-- Line 250: existing CSV artifacts matching the goal. -/
def rankingCsvCandidates (env : Env) (goal : String) : List String :=
  env.listdir.filter
    (fun f => strStarts f "crewai-autocrew-" && strEnds f ".csv" && strContains f goal)

/-- State threaded through the generation loop (lines 277-304): traced
events, how many model invocations and timestamps have been consumed, the
CSV paths collected so far, and whether an exception has been caught (the
whole loop sits in one `try`, so the first exception ends it). -/
structure LoopState where
  events : List Event := []
  invokes : Nat := 0
  stamps : Nat := 0
  csvPaths : List String := []
  failed : Bool := false

/-- One iteration of the loop (lines 277-304). -/
def runIter (env : Env) (goal : String) (autoRun : Bool) (i : Nat)
    (st : LoopState) : LoopState :=
  if st.failed then st
  else
    let response := env.responses st.invokes
    let st1 := { st with
      events := st.events ++ [Event.modelCall (agentPrompt goal ",")],
      invokes := st.invokes + 1 }
    if response = "" then { st1 with failed := true }
    else
      let csvName := "crewai-autocrew-" ++ env.timestamps st1.stamps ++ "-" ++
        replaceChar ' ' '-' (strTake 40 goal) ++ "-" ++ toString (i + 1) ++ ".csv"
      let csvPath := pathJoin env.cwd csvName
      let st2 := { st1 with
        stamps := st1.stamps + 1,
        events := st1.events ++ [Event.fileWrite csvPath] }
      match parse_csv_data (env.csvRead response) csvPath with
      | Except.error _ => { st2 with failed := true }
      | Except.ok agents =>
        if agents = [] then { st2 with failed := true }
        else
          let scriptName := "crewai-autocrew-" ++ env.timestamps st2.stamps ++ "-" ++
            replaceChar ' ' '-' (strTake 50 goal) ++ "-" ++ toString (i + 1) ++ ".py"
          let scriptPath := pathJoin env.cwd scriptName
          let st3 := { st2 with stamps := st2.stamps + 1 }
          match crewTasksOf agents with
          | Except.error _ => { st3 with failed := true }
          | Except.ok ct =>
            match write_crewai_script agents ct with
            | Except.error _ => { st3 with failed := true }
            | Except.ok _ =>
              let st4 := { st3 with
                events := st3.events ++ [Event.fileWrite scriptPath],
                csvPaths := st3.csvPaths ++ [csvPath] }
              if autoRun then
                { st4 with
                  events := st4.events ++ [Event.scriptRun ("python3 " ++ scriptPath)] }
              else st4

/-- The whole `try` block of lines 274-326: the loop, then the ranking
phase when more than one script was requested and no exception occurred.
Every exception here is caught at line 328, so the branch always returns. -/
def runLoop (env : Env) (goal : String) (autoRun : Bool) (n : Int) :
    List Event × MainResult :=
  let st := (List.range n.toNat).foldl (fun s i => runIter env goal autoRun i s) {}
  if st.failed = false ∧ 1 < n then
    let ranked := env.responses st.invokes
    let rankName := "crewai-autocrew-" ++ env.timestamps st.stamps ++ "-" ++
      replaceChar ' ' '-' (strTake 50 goal) ++ "-ranking.csv"
    (st.events ++
      [Event.modelCall (rankCrewsPrompt env.readFile st.csvPaths goal),
       Event.fileWrite (pathJoin env.cwd rankName),
       Event.modelCall (rankSummary st.csvPaths.eraseDups ranked ranked)],
     MainResult.returned)
  else (st.events, MainResult.returned)

/-- `main()` (lines 222-330).  The banner prints and the best-effort
version check precede everything and are not traced; the flag check at
lines 241-242 is outside every `try`, so its `ValueError` propagates. -/
def mainModel (args : Args) (env : Env) : List Event × MainResult :=
  if multTruthy args.multiple && args.auto_run then
    ([], MainResult.raised (PyError.valueError cfgErrorMsg))
  else if args.ranking then
    let goal := resolvedRankingGoal args env
    let cands := rankingCsvCandidates env goal
    if cands = [] then
      ([Event.print ("No CSV files found for the provided overall goal: " ++ goal)],
       MainResult.returned)
    else
      ([Event.modelCall (rankCrewsPrompt env.readFile cands goal)],
       MainResult.returned)
  else
    let goal := match args.overall_goal with
      | none => env.stdinGoal
      | some g => g
    let n : Int := match args.multiple with
      | none => 1
      | some k => if k = 0 then 1 else k
    runLoop env goal args.auto_run n

/-! ## Helper lemmas -/

theorem strExt {a b : String} (h : a.data = b.data) : a = b :=
  congrArg String.mk h

theorem strData_append (a b : String) : (a ++ b).data = a.data ++ b.data := by
  cases a; cases b; rfl

theorem str_append_nil (s : String) : s ++ "" = s := by
  apply strExt; simp [strData_append]

theorem str_nil_append (s : String) : "" ++ s = s := by
  apply strExt; simp [strData_append]

theorem str_append_assoc (a b c : String) : a ++ b ++ c = a ++ (b ++ c) := by
  apply strExt; simp [strData_append]

theorem mapMExcept_ok {f : α → Except PyError β} {g : α → β} :
    ∀ {l : List α}, (∀ x ∈ l, f x = Except.ok (g x)) →
      mapMExcept f l = Except.ok (l.map g) := by
  intro l
  induction l with
  | nil => intro _; rfl
  | cons a t ih =>
    intro h
    have ha := h a (by simp)
    have ht := ih (fun x hx => h x (by simp [hx]))
    simp [mapMExcept, ha, ht]

theorem mapMExcept_map (f : β → Except PyError γ) (m : α → β) :
    ∀ (l : List α), mapMExcept f (l.map m) = mapMExcept (fun x => f (m x)) l := by
  intro l
  induction l with
  | nil => rfl
  | cons a t ih => simp [mapMExcept, ih]

theorem headerIndices_length (headerLine : List String) :
    (headerIndices headerLine).length = headerLine.length := by
  simp [headerIndices]

theorem assignFields_eq_foldl :
    ∀ (line : List String) (hIdx : List (Option String)) (acc : AgentData),
      line.length ≤ hIdx.length →
      assignFields hIdx line acc = Except.ok ((line.zip hIdx).foldl applyCell acc) := by
  intro line
  induction line with
  | nil => intro hIdx acc _; cases hIdx <;> rfl
  | cons v vs ih =>
    intro hIdx acc hlen
    cases hIdx with
    | nil => simp at hlen
    | cons h hs =>
      have hl : vs.length ≤ hs.length := by simpa using hlen
      calc assignFields (h :: hs) (v :: vs) acc
          = assignFields hs vs (applyCell acc (v, h)) := rfl
        _ = Except.ok ((vs.zip hs).foldl applyCell (applyCell acc (v, h))) := ih hs _ hl
        _ = Except.ok (((v :: vs).zip (h :: hs)).foldl applyCell acc) := rfl

theorem assignFields_rowRecord {line : List String} {hIdx : List (Option String)}
    (hlen : line.length ≤ hIdx.length) :
    assignFields hIdx line {} = Except.ok (rowRecord hIdx line) :=
  assignFields_eq_foldl line hIdx {} hlen

theorem assignFields_overflow :
    ∀ (hIdx : List (Option String)) (line : List String) (acc : AgentData),
      hIdx.length < line.length →
      assignFields hIdx line acc = Except.error PyError.indexError := by
  intro hIdx
  induction hIdx with
  | nil =>
    intro line acc hlen
    cases line with
    | nil => simp at hlen
    | cons v vs => rfl
  | cons h hs ih =>
    intro line acc hlen
    cases line with
    | nil => simp at hlen
    | cons v vs =>
      have : hs.length < vs.length := by simpa using hlen
      simp [assignFields, ih vs _ this]

theorem badRoleB_iff (hIdx : List (Option String)) (row : List String) :
    badRoleB hIdx row = true ↔
      ((rowRecord hIdx row).role = none ∨ (rowRecord hIdx row).role = some "") := by
  simp [badRoleB]

theorem parseLine_ok {hIdx : List (Option String)} {line : List String}
    (fn : String) (hlen : line.length ≤ hIdx.length)
    (hrole : badRoleB hIdx line = false) :
    parseLine hIdx fn line =
      Except.ok { rowRecord hIdx line with filename := some fn } := by
  have hr : ¬((rowRecord hIdx line).role = none ∨ (rowRecord hIdx line).role = some "") := by
    rw [← badRoleB_iff]; simp [hrole]
  simp [parseLine, assignFields_rowRecord hlen, hr]

theorem parseLine_bad {hIdx : List (Option String)} {line : List String}
    (fn : String) (hlen : line.length ≤ hIdx.length)
    (hrole : badRoleB hIdx line = true) :
    parseLine hIdx fn line = Except.error (PyError.valueError roleMissingMsg) := by
  have hr := (badRoleB_iff hIdx line).mp hrole
  simp [parseLine, assignFields_rowRecord hlen, hr]

theorem parseLine_overflow {hIdx : List (Option String)} {line : List String}
    (fn : String) (hlen : hIdx.length < line.length) :
    parseLine hIdx fn line = Except.error PyError.indexError := by
  simp [parseLine, assignFields_overflow hIdx line _ hlen]

theorem headerIndices_std :
    headerIndices stdHeader =
      [some "role", some "goal", some "backstory", some "assigned_task",
       some "allow_delegation"] := by decide

theorem rowRecord_std_role (row : List String) (h5 : row.length ≤ 5)
    (hne : row ≠ []) :
    (rowRecord (headerIndices stdHeader) row).role =
      some (stripQuotes (row.headD "")) := by
  rw [headerIndices_std]
  match row, h5 with
  | [a], _ => rfl
  | [a, b], _ => rfl
  | [a, b, c], _ => rfl
  | [a, b, c, d], _ => rfl
  | [a, b, c, d, e], _ => rfl
  | [], _ => exact absurd rfl hne

theorem rowRecord_std_goal (row : List String) (h : row.length ≤ 1) :
    (rowRecord (headerIndices stdHeader) row).goal = none := by
  rw [headerIndices_std]
  match row, h with
  | [], _ => rfl
  | [a], _ => rfl

theorem rowRecord_std_backstory (row : List String) (h : row.length ≤ 2) :
    (rowRecord (headerIndices stdHeader) row).backstory = none := by
  rw [headerIndices_std]
  match row, h with
  | [], _ => rfl
  | [a], _ => rfl
  | [a, b], _ => rfl

theorem rowRecord_std_assigned (row : List String) (h : row.length ≤ 3) :
    (rowRecord (headerIndices stdHeader) row).assigned_task = none := by
  rw [headerIndices_std]
  match row, h with
  | [], _ => rfl
  | [a], _ => rfl
  | [a, b], _ => rfl
  | [a, b, c], _ => rfl

theorem rowRecord_std_delegation (row : List String) (h : row.length ≤ 4) :
    (rowRecord (headerIndices stdHeader) row).allow_delegation = none := by
  rw [headerIndices_std]
  match row, h with
  | [], _ => rfl
  | [a], _ => rfl
  | [a, b], _ => rfl
  | [a, b, c], _ => rfl
  | [a, b, c, d], _ => rfl

theorem roleOkB_not_bad {row : List String} (h5 : row.length ≤ 5)
    (hok : roleOkB row = true) :
    badRoleB (headerIndices stdHeader) row = false := by
  cases row with
  | nil => simp [roleOkB] at hok
  | cons v vs =>
    have hne : stripQuotes v ≠ "" := by simpa [roleOkB] using hok
    have hrole := rowRecord_std_role (v :: vs) h5 (by simp)
    simp [badRoleB, hrole, List.headD, hne]

instance exceptDecEq {ε α : Type} [DecidableEq ε] [DecidableEq α] :
    DecidableEq (Except ε α) := fun x y =>
  match x, y with
  | Except.ok a, Except.ok b =>
    if h : a = b then isTrue (by rw [h])
    else isFalse (by intro he; cases he; exact h rfl)
  | Except.error e, Except.error f =>
    if h : e = f then isTrue (by rw [h])
    else isFalse (by intro he; cases he; exact h rfl)
  | Except.ok _, Except.error _ => isFalse (by intro h; cases h)
  | Except.error _, Except.ok _ => isFalse (by intro h; cases h)

/-! ## Claim C1: parsing well-formed rows under the standard header -/

/-- Concrete input refuting C1 as stated: the header is the standard one
and the first data row has a non-empty role, but the second data row has
an empty role, so the parser raises its `ValueError` instead of returning
one record per data row. -/
def c1rows : List (List String) :=
  [["Researcher", "find papers", "analyst", "scan arxiv", "True"],
   ["", "g", "b", "t", "True"]]

/-- Counterexample to C1 as stated: a CSV with the standard header and at
least one data row with a non-empty role on which `parse_csv_data` does
not return a record list at all, but raises the role-missing error. -/
theorem c1_counterexample :
    parseSucceeds (parse_csv_data (stdHeader :: c1rows) "f.csv") = false ∧
    parse_csv_data (stdHeader :: c1rows) "f.csv" =
      Except.error (PyError.valueError roleMissingMsg) := by decide

/-- Claim C1 (amended): for a CSV whose first row is the standard header
`role,goal,backstory,assigned_task,allow_delegation` and in which every
data row has at most five fields and a non-empty (quote-stripped) first
field, `parse_csv_data` returns exactly one record per data row, in input
order: the result is literally the row list mapped through the per-row
record builder. -/
theorem parse_std_rows_ok (rows : List (List String)) (fn : String)
    (h : ∀ row ∈ rows, row.length ≤ 5 ∧ roleOkB row = true) :
    parse_csv_data (stdHeader :: rows) fn =
      Except.ok (rows.map (fun row =>
        { rowRecord (headerIndices stdHeader) row with filename := some fn })) := by
  show mapMExcept _ rows = _
  apply mapMExcept_ok
  intro row hrow
  obtain ⟨h5, hok⟩ := h row hrow
  exact parseLine_ok fn (by rw [headerIndices_length]; exact h5)
    (roleOkB_not_bad h5 hok)

/-- Rows used by the witness for the amended C1. -/
def c1okrows : List (List String) :=
  [["\"Researcher\"", "\"find papers\"", "\"veteran analyst\"", "\"scan arxiv\"", "\"True\""],
   ["Writer", "write", "author", "draft", "False"]]

theorem parse_std_rows_ok_witness :
    parse_csv_data (stdHeader :: c1okrows) "f.csv" =
      Except.ok (c1okrows.map (fun row =>
        { rowRecord (headerIndices stdHeader) row with filename := some "f.csv" })) :=
  parse_std_rows_ok c1okrows "f.csv" (by decide)

/-! ## Claim C2: a missing or empty role is a fatal parse error -/

/-- Concrete input refuting C2 as stated: the third row has an empty role,
but the second row has more fields than the header, so the parser raises
`IndexError` (not the validation `ValueError`) before ever looking at the
empty-role row. -/
def c2lines : List (List String) := [["role"], ["x", "y"], [""]]

/-- Counterexample to C2 as stated: a CSV containing a data row with an
empty role on which `parse_csv_data` raises an indexing error, not a
validation error. -/
theorem c2_counterexample :
    isValueError (parse_csv_data c2lines "") = false ∧
    parse_csv_data c2lines "" = Except.error PyError.indexError := by decide

/-- Claim C2 (amended): if no data row is wider than the header row, then a
CSV containing a data row whose role field (as the parser computes it) is
absent or empty makes `parse_csv_data` raise the role-missing
`ValueError`, regardless of the row's other fields. -/
theorem parse_missing_role_value_error (headerLine : List String)
    (rows : List (List String)) (fn : String)
    (hlen : ∀ r ∈ rows, r.length ≤ headerLine.length)
    (hbad : ∃ r ∈ rows, badRoleB (headerIndices headerLine) r = true) :
    parse_csv_data (headerLine :: rows) fn =
      Except.error (PyError.valueError roleMissingMsg) := by
  show mapMExcept _ rows = _
  induction rows with
  | nil => simp at hbad
  | cons r rs ih =>
    have hr : r.length ≤ (headerIndices headerLine).length := by
      rw [headerIndices_length]; exact hlen r (by simp)
    by_cases hb : badRoleB (headerIndices headerLine) r = true
    · simp [mapMExcept, parseLine_bad fn hr hb]
    · have hok := parseLine_ok fn hr (by simpa using hb)
      have hbad' : ∃ x ∈ rs, badRoleB (headerIndices headerLine) x = true := by
        obtain ⟨x, hx, hbx⟩ := hbad
        cases hx with
        | head => exact absurd hbx hb
        | tail _ h => exact ⟨x, h, hbx⟩
      have := ih (fun x hx => hlen x (by simp [hx])) hbad'
      simp [mapMExcept, hok, this]

/-- Witness rows for the amended C2: the second row's role strips to the
empty string. -/
def c2rows : List (List String) :=
  [["x", "g", "b", "t", "True"], ["\"\"", "g"]]

theorem parse_missing_role_value_error_witness :
    parse_csv_data (stdHeader :: c2rows) "" =
      Except.error (PyError.valueError roleMissingMsg) :=
  parse_missing_role_value_error stdHeader c2rows "" (by decide) (by decide)

/-! ## Claim C9: rows shorter than the header are tolerated -/

/-- Claim C9: under the standard header, a data row with fewer fields than
the header and a present, non-empty role parses without error, and the
columns the row did not supply are simply absent from the resulting
record. -/
theorem parse_short_row_tolerated (row : List String) (fn : String)
    (h1 : row.length < 5) (h2 : row ≠ [])
    (h3 : stripQuotes (row.headD "") ≠ "") :
    parse_csv_data [stdHeader, row] fn =
      Except.ok [{ rowRecord (headerIndices stdHeader) row with filename := some fn }] ∧
    (rowRecord (headerIndices stdHeader) row).role =
      some (stripQuotes (row.headD "")) ∧
    (row.length ≤ 1 → (rowRecord (headerIndices stdHeader) row).goal = none) ∧
    (row.length ≤ 2 → (rowRecord (headerIndices stdHeader) row).backstory = none) ∧
    (row.length ≤ 3 → (rowRecord (headerIndices stdHeader) row).assigned_task = none) ∧
    (row.length ≤ 4 → (rowRecord (headerIndices stdHeader) row).allow_delegation = none) := by
  have h5 : row.length ≤ 5 := Nat.le_of_lt h1
  have hrole := rowRecord_std_role row h5 h2
  have hok : roleOkB row = true := by
    cases row with
    | nil => exact absurd rfl h2
    | cons v vs => simpa [roleOkB, List.headD] using h3
  refine ⟨?_, hrole, fun h => rowRecord_std_goal row h,
    fun h => rowRecord_std_backstory row h,
    fun h => rowRecord_std_assigned row h,
    fun h => rowRecord_std_delegation row h⟩
  show mapMExcept _ [row] = _
  have := @parseLine_ok (headerIndices stdHeader) row fn
    (by rw [headerIndices_length]; exact h5) (roleOkB_not_bad h5 hok)
  simp [mapMExcept, this]

/-- Witness row for C9: two of five columns supplied, role quoted. -/
def c9row : List String := ["\"R\"", "g"]

theorem parse_short_row_tolerated_witness :
    parse_csv_data [stdHeader, c9row] "p" =
      Except.ok [{ rowRecord (headerIndices stdHeader) c9row with filename := some "p" }] ∧
    (rowRecord (headerIndices stdHeader) c9row).role =
      some (stripQuotes (c9row.headD "")) ∧
    (rowRecord (headerIndices stdHeader) c9row).backstory = none ∧
    (rowRecord (headerIndices stdHeader) c9row).assigned_task = none ∧
    (rowRecord (headerIndices stdHeader) c9row).allow_delegation = none := by
  have h := parse_short_row_tolerated c9row "p" (by decide) (by decide) (by decide)
  exact ⟨h.1, h.2.1, h.2.2.2.1 (by decide), h.2.2.2.2.1 (by decide),
    h.2.2.2.2.2 (by decide)⟩

/-! ## Claim C10: rows wider than the header raise IndexError -/

/-- Concrete input refuting C10 as stated: the third row is wider than the
header, but the second row's role is empty, so the parser raises the
validation `ValueError` before it ever reaches the wide row. -/
def c10lines : List (List String) := [["role"], [""], ["a", "b"]]

/-- Counterexample to C10 as stated: a CSV containing a data row wider
than the header on which `parse_csv_data` raises the validation error,
not an indexing error. -/
theorem c10_counterexample :
    isIndexError (parse_csv_data c10lines "") = false ∧
    parse_csv_data c10lines "" =
      Except.error (PyError.valueError roleMissingMsg) := by decide

/-- Claim C10 (amended): a data row strictly wider than the header row
makes `parse_csv_data` raise `IndexError` (not the validation error),
provided every earlier data row parses successfully (so the wide row is
actually reached). -/
theorem parse_wide_row_index_error (headerLine : List String)
    (pre post : List (List String)) (row : List String) (fn : String)
    (hw : headerLine.length < row.length)
    (hpre : ∀ r ∈ pre, ∃ a, parseLine (headerIndices headerLine) fn r = Except.ok a) :
    parse_csv_data (headerLine :: (pre ++ row :: post)) fn =
      Except.error PyError.indexError := by
  show mapMExcept _ (pre ++ row :: post) = _
  induction pre with
  | nil =>
    have : parseLine (headerIndices headerLine) fn row = Except.error PyError.indexError :=
      parseLine_overflow fn (by rw [headerIndices_length]; exact hw)
    simp [mapMExcept, this]
  | cons r rs ih =>
    obtain ⟨a, ha⟩ := hpre r (by simp)
    have := ih (fun x hx => hpre x (by simp [hx]))
    simp [mapMExcept, ha, this]

theorem parse_wide_row_index_error_witness :
    parse_csv_data (["role"] :: ([] ++ ["a", "b"] :: [])) "" =
      Except.error PyError.indexError :=
  parse_wide_row_index_error ["role"] [] [] ["a", "b"] "" (by decide) (by simp)

/-! ## Claim C3: escaping in the emitted snippets -/

/-- Evaluating both emitters on a fully populated record. -/
theorem define_agent_full (f : FullAgent) (tool : String) :
    define_agent f.toData tool = Except.ok (agentSnippet f tool) := rfl

theorem define_task_full (f : FullAgent) :
    define_task f.toData = Except.ok (taskSnippet f) := rfl

/-- Concrete agent whose assigned task contains a single quote. -/
def c3agent : FullAgent :=
  { role := "R", goal := "g", backstory := "b",
    assigned_task := "it" ++ sqS ++ "s job", allow_delegation := "True" }

/-- Counterexample to C3 as stated: the task snippet emitted for
`c3agent` contains the single-quote character of its `assigned_task`
field but contains no backslash-quote pair at all, so the single quote
was not backslash-escaped, and the emitted text differs from the variant
the claim predicts (single quotes escaped). -/
theorem c3_counterexample :
    define_task c3agent.toData = Except.ok (taskSnippet c3agent) ∧
    strContains (taskSnippet c3agent) sqS = true ∧
    strContains (taskSnippet c3agent) ("\\" ++ sqS) = false ∧
    taskSnippet c3agent ≠ taskSnippetClaim c3agent := by decide

/-- Claim C3 (amended): for every record, the agent snippet escapes both
double and single quotes in `role` and `backstory` and emits `goal`
verbatim, while the task snippet escapes only double quotes in the
(whitespace-stripped) `assigned_task`; single quotes in `assigned_task`
are left unescaped. -/
theorem emitter_escaping (f : FullAgent) (tool : String) :
    define_agent f.toData tool = Except.ok (agentSnippet f tool) ∧
    define_task f.toData = Except.ok (taskSnippet f) :=
  ⟨define_agent_full f tool, define_task_full f⟩

/-! ## Claim C4: identifier consistency of the emitted script -/

/-- Claim C4: for any list of records, line 294 of `main` produces exactly
the comma-joined task variables, and `write_crewai_script` emits the
script assembled from one agent snippet and one task snippet per record,
with the agent variable `derive role` and the task variable
`"task_" ++ derive role` used identically in their definitions, in each
task's agent reference, and in the crew's member lists
(see `agentSnippet`, `taskSnippet` and `scriptSpec`). -/
theorem script_identifier_consistency (l : List FullAgent) :
    crewTasksOf (l.map FullAgent.toData) =
      Except.ok (pyJoin ", " (l.map (fun a => "task_" ++ derive a.role))) ∧
    write_crewai_script (l.map FullAgent.toData)
        (pyJoin ", " (l.map (fun a => "task_" ++ derive a.role))) =
      Except.ok (scriptSpec l) := by
  have hTasks : mapMExcept
      (fun a : AgentData =>
        match a.role with
        | none => Except.error PyError.keyError
        | some r => Except.ok ("task_" ++ derive r))
      (l.map FullAgent.toData) =
      Except.ok (l.map (fun a => "task_" ++ derive a.role)) := by
    rw [mapMExcept_map]
    exact mapMExcept_ok (fun a _ => rfl)
  have hVars : mapMExcept
      (fun a : AgentData =>
        match a.role with
        | none => Except.error PyError.keyError
        | some r => Except.ok (derive r))
      (l.map FullAgent.toData) =
      Except.ok (l.map (fun a => derive a.role)) := by
    rw [mapMExcept_map]
    exact mapMExcept_ok (fun a _ => rfl)
  have hAgents : mapMExcept (fun a => define_agent a "search_tool")
      (l.map FullAgent.toData) =
      Except.ok (l.map (fun a => agentSnippet a "search_tool")) := by
    rw [mapMExcept_map]
    exact mapMExcept_ok (fun a _ => define_agent_full a "search_tool")
  have hTaskDefs : mapMExcept define_task (l.map FullAgent.toData) =
      Except.ok (l.map taskSnippet) := by
    rw [mapMExcept_map]
    exact mapMExcept_ok (fun a _ => define_task_full a)
  constructor
  · simp [crewTasksOf, hTasks]
  · simp [write_crewai_script, hVars, hAgents, hTaskDefs, scriptSpec, List.map_map,
      Function.comp_def]

/-! ## Claim C5: identifier derivation is total and idempotent -/

/-- One single-character replacement, as a function on characters. -/
def repC (a b : Char) (c : Char) : Char := if c = a then b else c

/-- Claim C5: the identifier derivation (replace every space, hyphen and
period with an underscore) is a total function on strings and is
idempotent. -/
theorem derive_idempotent (s : String) : derive (derive s) = derive s := by
  apply strExt
  show (((((s.data.map (repC ' ' '_')).map (repC '-' '_')).map (repC '.' '_')).map
      (repC ' ' '_')).map (repC '-' '_')).map (repC '.' '_') =
    ((s.data.map (repC ' ' '_')).map (repC '-' '_')).map (repC '.' '_')
  simp only [List.map_map]
  apply List.map_congr_left
  intro c _
  simp only [Function.comp]
  by_cases h1 : c = ' '
  · subst h1; rfl
  · by_cases h2 : c = '-'
    · subst h2; rfl
    · by_cases h3 : c = '.'
      · subst h3; rfl
      · simp [repC, h1, h2, h3]

/-! ## Claim C6: the multiple and auto-run flags are mutually exclusive -/

/-- Claim C6: when the multiple flag carries a nonzero count and the
auto-run flag is set, `main` raises the configuration `ValueError` with an
empty effect trace: no model call has been made and no file has been
created. -/
theorem multiple_auto_run_config_error (args : Args) (env : Env)
    (hm : multTruthy args.multiple = true) (ha : args.auto_run = true) :
    mainModel args env = ([], MainResult.raised (PyError.valueError cfgErrorMsg)) := by
  simp [mainModel, hm, ha]

/-- An environment with nothing in it, for the witnesses. -/
def envTrivial : Env :=
  { stdinGoal := "", cwd := "", listdir := [], timestamps := fun _ => "",
    responses := fun _ => "", readFile := fun _ => "", csvRead := fun _ => [] }

/-- Arguments passing both incompatible flags. -/
def argsC6 : Args :=
  { overall_goal := some "g", auto_run := true, multiple := some 3, ranking := false }

theorem multiple_auto_run_config_error_witness :
    mainModel argsC6 envTrivial =
      ([], MainResult.raised (PyError.valueError cfgErrorMsg)) :=
  multiple_auto_run_config_error argsC6 envTrivial (by decide) rfl

/-! ## Claim C7: ranking mode with no matching CSV files -/

/-- Claim C7: in ranking mode, when no file in the working directory both
starts with the fixed prefix, ends with `.csv` and contains the resolved
goal, `main` emits exactly the no-CSV-files-found report and returns; in
particular no model call occurs. -/
theorem ranking_no_csv_report (args : Args) (env : Env)
    (hflags : (multTruthy args.multiple && args.auto_run) = false)
    (hr : args.ranking = true)
    (hempty : rankingCsvCandidates env (resolvedRankingGoal args env) = []) :
    mainModel args env =
      ([Event.print ("No CSV files found for the provided overall goal: " ++
          resolvedRankingGoal args env)], MainResult.returned) := by
  simp [mainModel, hflags, hr, hempty]

/-- An environment whose directory has no matching CSV file. -/
def envC7 : Env :=
  { stdinGoal := "", cwd := "", listdir := ["notes.txt", "crewai-autocrew-1-other.csv"],
    timestamps := fun _ => "", responses := fun _ => "", readFile := fun _ => "",
    csvRead := fun _ => [] }

/-- Arguments selecting ranking mode with a goal matching no file. -/
def argsC7 : Args :=
  { overall_goal := some "nomatch", auto_run := false, multiple := none, ranking := true }

theorem ranking_no_csv_report_witness :
    mainModel argsC7 envC7 =
      ([Event.print ("No CSV files found for the provided overall goal: " ++
          resolvedRankingGoal argsC7 envC7)], MainResult.returned) :=
  ranking_no_csv_report argsC7 envC7 (by decide) rfl (by decide)

/-! ## Claim C8: the concatenated CSV sent to the ranking prompt -/

/-- The part of the concatenated CSV contributed by the paths themselves
(everything after the shared header): one prefixed block plus newline per
kept path, nothing for skipped paths. -/
def concatBody (read : String → String) : List String → String
  | [] => ""
  | p :: ps =>
    (if strContains (strLower p) "ranking" then "" else fileBlock read p ++ "\n") ++
      concatBody read ps

theorem concatenated_from (read : String → String) :
    ∀ (paths : List String) (acc : String),
      paths.foldl
        (fun acc p =>
          if strContains (strLower p) "ranking" then acc
          else acc ++ fileBlock read p ++ "\n")
        acc = acc ++ concatBody read paths := by
  intro paths
  induction paths with
  | nil => intro acc; simp [concatBody, str_append_nil]
  | cons p ps ih =>
    intro acc
    by_cases hc : strContains (strLower p) "ranking" = true
    · simp [concatBody, hc, ih, str_nil_append]
    · simp only [List.foldl, concatBody, hc, if_false, Bool.false_eq_true]
      rw [ih]
      simp [str_append_assoc]

theorem concatenated_eq (read : String → String) (paths : List String) :
    concatenatedCsvData read paths = csvSharedHeader ++ concatBody read paths :=
  concatenated_from read paths csvSharedHeader

theorem concatBody_filter (read : String → String) :
    ∀ paths : List String,
      concatBody read (paths.filter (fun q => !(strContains (strLower q) "ranking"))) =
        concatBody read paths := by
  intro paths
  induction paths with
  | nil => rfl
  | cons p ps ih =>
    by_cases hc : strContains (strLower p) "ranking" = true
    · simp [List.filter, concatBody, hc, ih, str_nil_append]
    · simp [List.filter, concatBody, hc, ih]

theorem infix_append_left {α : Type} {l h : List α} (t : List α)
    (hi : l <:+: h) : l <:+: t ++ h := by
  obtain ⟨s, u, rfl⟩ := hi
  exact ⟨t ++ s, u, by simp⟩

theorem pyJoin_mem_infix :
    ∀ (rows : List String) (x : String), x ∈ rows →
      (x ++ "\n").data <:+: (pyJoin "\n" rows ++ "\n").data := by
  intro rows
  induction rows with
  | nil => intro x hx; simp at hx
  | cons y t ih =>
    intro x hx
    cases t with
    | nil =>
      have : x = y := by simpa using hx
      subst this
      exact List.infix_refl _
    | cons z t' =>
      cases hx with
      | head =>
        refine ⟨[], (pyJoin "\n" (z :: t') ++ "\n").data, ?_⟩
        show (y ++ "\n").data ++ _ = _
        simp [pyJoin, strData_append, List.append_assoc]
      | tail _ hmem =>
        have hin := ih x hmem
        have : (pyJoin "\n" (y :: z :: t') ++ "\n").data =
            (y ++ "\n").data ++ (pyJoin "\n" (z :: t') ++ "\n").data := by
          simp [pyJoin, strData_append, List.append_assoc]
        rw [this]
        exact infix_append_left _ hin

theorem fileBlock_infix_body (read : String → String) :
    ∀ (paths : List String) (p : String), p ∈ paths →
      strContains (strLower p) "ranking" = false →
      (fileBlock read p ++ "\n").data <:+: (concatBody read paths).data := by
  intro paths
  induction paths with
  | nil => intro p hp; simp at hp
  | cons q ps ih =>
    intro p hp hk
    cases hp with
    | head =>
      refine ⟨[], (concatBody read ps).data, ?_⟩
      show (fileBlock read q ++ "\n").data ++ _ = _
      simp [concatBody, hk, strData_append]
    | tail _ hmem =>
      have hin := ih p hmem hk
      have : (concatBody read (q :: ps)).data =
          (if strContains (strLower q) "ranking" then ""
           else fileBlock read q ++ "\n").data ++ (concatBody read ps).data := by
        simp [concatBody, strData_append]
      rw [this]
      exact infix_append_left _ hin

/-- Claim C8: in the CSV text `rank_crews` concatenates, (1) paths whose
lowered name contains "ranking" contribute nothing (the text equals the
one built from the filtered path list); (2) the text starts with the
single shared header `filename,role,goal,backstory,assigned_task,
allow_delegation`; (3) every row of every remaining file appears in the
text as a line prefixed with that file's base filename as an extra leading
field. -/
theorem rank_concat_spec (read : String → String) (paths : List String)
    (p row : String) (hp : p ∈ paths)
    (hk : strContains (strLower p) "ranking" = false)
    (hr : row ∈ splitNL (pyStrip (read p))) :
    concatenatedCsvData read paths =
      concatenatedCsvData read
        (paths.filter (fun q => !(strContains (strLower q) "ranking"))) ∧
    csvSharedHeader.data <+: (concatenatedCsvData read paths).data ∧
    (basename p ++ "," ++ row ++ "\n").data <:+:
      (concatenatedCsvData read paths).data := by
  refine ⟨?_, ?_, ?_⟩
  · rw [concatenated_eq, concatenated_eq, concatBody_filter]
  · rw [concatenated_eq, strData_append]
    exact List.prefix_append _ _
  · have hmem : (basename p ++ "," ++ row) ∈
        (splitNL (pyStrip (read p))).map (fun r => basename p ++ "," ++ r) :=
      List.mem_map_of_mem _ hr
    have h1 : ((basename p ++ "," ++ row) ++ "\n").data <:+:
        (fileBlock read p ++ "\n").data :=
      pyJoin_mem_infix _ _ hmem
    have h2 := (h1.trans (fileBlock_infix_body read paths p hp hk))
    rw [concatenated_eq, strData_append]
    exact infix_append_left _ h2

/-- Reader used by the C8 witness. -/
def c8read : String → String := fun _ => "role,goal\nr1,g1\n"

theorem rank_concat_spec_witness :
    concatenatedCsvData c8read ["a.csv"] =
      concatenatedCsvData c8read
        (["a.csv"].filter (fun q => !(strContains (strLower q) "ranking"))) ∧
    csvSharedHeader.data <+: (concatenatedCsvData c8read ["a.csv"]).data ∧
    (basename "a.csv" ++ "," ++ "r1,g1" ++ "\n").data <:+:
      (concatenatedCsvData c8read ["a.csv"]).data :=
  rank_concat_spec c8read ["a.csv"] "a.csv" "r1,g1" (by decide) (by decide) (by decide)
